import Mathlib

/-!
Verification of the cluster operations command layer
(internal/cli/cmd/cluster/operations.go).

The Go code is shallowly embedded: each validation function becomes a pure
Lean function; the external collaborators (local filesystem stat, the
resource accessor fetching templates / config maps / constraints / cluster
records, the interactive confirmation gate) are passed in as an explicit
environment of oracles, so that the validation logic itself is fully
executable and its dependence (or independence) on each oracle can be
stated and proved.

Go strings are Lean strings; the two splitting primitives used by the code
(strings.Split with a one-character separator, and strings.SplitN with
limit 2) are defined by structural recursion on the character list so that
concrete instances evaluate inside the kernel.  A Go map[string]string is
modelled as an association list with unique keys: assignment replaces an
existing binding in place, and map indexing is association-list lookup.
-/

set_option autoImplicit false

namespace Ops

/-- Character-level model of Go strings.Split with a one-character
separator: splitting the empty string yields one empty field, and every
occurrence of the separator starts a new field. -/
def splitChar (sep : Char) : List Char → List (List Char)
  | [] => [[]]
  | c :: rest =>
    if c = sep then [] :: splitChar sep rest
    else
      match splitChar sep rest with
      | [] => [[c]]
      | h :: t => (c :: h) :: t

/-- Character-level model of Go strings.SplitN with a one-character
separator and limit 2: split at the first occurrence of the separator
only, yielding one field when the separator is absent and two otherwise. -/
def splitN2Char (sep : Char) : List Char → List (List Char)
  | [] => [[]]
  | c :: rest =>
    if c = sep then [[], rest]
    else
      match splitN2Char sep rest with
      | [] => [[c]]
      | h :: t => (c :: h) :: t

/-- Go strings.Split s sep for a one-character separator. -/
def goSplit (sep : Char) (s : String) : List String :=
  (splitChar sep s.data).map List.asString

/-- Go strings.SplitN s sep 2 for a one-character separator. -/
def goSplitN2 (sep : Char) (s : String) : List String :=
  (splitN2Char sep s.data).map List.asString

/-- Go map assignment m[k] = v on the association-list model of
map[string]string: replace the binding of k in place when present,
append it otherwise. -/
def mapInsert (k v : String) : List (String × String) → List (String × String)
  | [] => [(k, v)]
  | (k1, v1) :: rest => if k1 = k then (k, v) :: rest else (k1, v1) :: mapInsert k v rest

/-- The operation kinds of dbaasv1alpha1.OpsType that this command layer
dispatches on. -/
inductive OpsType where
  | Restart
  | Upgrade
  | VerticalScaling
  | HorizontalScaling
  | VolumeExpansion
  | Reconfiguring
deriving DecidableEq, Repr

/-- dbaasv1alpha1.ConfigTemplate, restricted to the fields this code
reads: the template name, the backing config-map volume name, and the
config constraint reference. -/
structure ConfigTemplate where
  Name : String
  VolumeName : String
  ConfigConstraintRef : String
deriving DecidableEq, Repr

/-- OperationsOptions: the operation descriptor, with the fields consumed
by the validation pipeline.  Name and Namespace come from the embedded
create.BaseOptions; KeyValues is the association-list model of the Go
map[string]string. -/
structure OperationsOptions where
  Name : String
  Namespace : String
  ComponentNames : List String
  OpsType : Ops.OpsType
  ClusterVersionRef : String
  RequestCPU : String
  RequestMemory : String
  LimitCPU : String
  LimitMemory : String
  Replicas : Int
  URLPath : String
  Parameters : List String
  KeyValues : List (String × String)
  CfgTemplateName : String
  CfgFile : String
  VCTNames : List String
  Storage : String
deriving DecidableEq, Repr

/-- The distinct error outcomes of the validation pipeline, one
constructor per error site of the Go code.  Errors produced by external
collaborators are carried as strings. -/
inductive OpsError where
  | missingClusterName
  | missingClusterVersion
  | missingComponentNames
  | missingVCTNames
  | missingStorage
  | replicasRequiredNaturalNumber
  | onlyOneComponent
  | statWrapped (path : String) (err : String)
  | updatedParamsWrapped (err : OpsError)
  | requiredConfigureFileOrParams
  | updatedParameterFormatter
  | remoteLookup (err : String)
  | noConfigTemplate
  | mustSpecifyTemplate
  | templateNotExist (name : String)
  | noConfigFile
  | fileNotExist (name : String)
deriving DecidableEq, Repr

/-- The cluster record fetched by CompleteRestartOps, abstracted to the
one field this code reads from it: the result of
unstructured.NestedStringSlice(obj, "status", "operations", "restartable"),
which either fails or yields a string slice (the found flag is discarded
by the caller). -/
structure ClusterRecord where
  restartable : Except String (List String)

/-- The external collaborators of the validation pipeline, as oracles:
os.Stat, util.GetConfigTemplateList, cfgcore.GetComponentCfgName, the
config-map fetch via GetResourceObjectFromGVR, the config-constraint
fetch plus cfgcore.MergeAndValidateConfiguration, delete.Confirm, and the
dynamic-client cluster Get used by CompleteRestartOps. -/
structure Env where
  statFile : String → Except String Unit
  getConfigTemplateList : String → String → String → Except OpsError (List ConfigTemplate)
  getComponentCfgName : String → String → String → String
  getConfigMapData : String → String → Except OpsError (List (String × String))
  getConfigConstraint : String → Except OpsError String
  mergeAndValidateConfiguration : String → String → List (String × String) → Except OpsError Unit
  confirm : List String → Except OpsError Unit
  getCluster : String → String → Except String ClusterRecord

/-- CompleteRestartOps: when component names are empty, fetch the cluster
record and store its status.operations.restartable list into
ComponentNames; both the fetch error and the nested-field error are
returned. -/
def CompleteRestartOps (env : Env) (o : OperationsOptions) : Except OpsError OperationsOptions :=
  if o.ComponentNames.length ≠ 0 then .ok o
  else
    match env.getCluster o.Namespace o.Name with
    | .error e => .error (.remoteLookup e)
    | .ok obj =>
      match obj.restartable with
      | .error e => .error (.remoteLookup e)
      | .ok names => .ok { o with ComponentNames := names }

/-- validateUpgrade: require a cluster version reference, then confirm. -/
def validateUpgrade (env : Env) (o : OperationsOptions) : Except OpsError OperationsOptions :=
  if o.ClusterVersionRef.length = 0 then .error .missingClusterVersion
  else
    match env.confirm [o.Name] with
    | .error e => .error e
    | .ok _ => .ok o

/-- validateVolumeExpansion: require volume-claim-template names and a
storage size. -/
def validateVolumeExpansion (o : OperationsOptions) : Except OpsError OperationsOptions :=
  if o.VCTNames.length = 0 then .error .missingVCTNames
  else if o.Storage.length = 0 then .error .missingStorage
  else .ok o

/-- validateHorizontalScaling: reject replica counts below -1. -/
def validateHorizontalScaling (o : OperationsOptions) : Except OpsError OperationsOptions :=
  if o.Replicas < -1 then .error .replicasRequiredNaturalNumber
  else .ok o

/-- One key=value pair of the updated-parameter list: split on the first
equals sign; anything other than exactly two fields is a format error,
and two fields become a map assignment. -/
def parsePair (kv : List (String × String)) (p : String) : Except OpsError (List (String × String)) :=
  match goSplitN2 '=' p with
  | [k, v] => .ok (mapInsert k v kv)
  | _ => .error .updatedParameterFormatter

/-- One entry of the Parameters list: split on commas and fold the pairs
into the key-value map in order. -/
def parseEntry (kv : List (String × String)) (param : String) : Except OpsError (List (String × String)) :=
  (goSplit ',' param).foldlM parsePair kv

/-- The whole Parameters list folded into a fresh key-value map, entries
in given order. -/
def parseParams (params : List String) : Except OpsError (List (String × String)) :=
  params.foldlM parseEntry []

/-- validateUpdatedParams: require parameters or a file path, then parse
the parameter list into KeyValues. -/
def validateUpdatedParams (o : OperationsOptions) : Except OpsError OperationsOptions :=
  if o.Parameters.length = 0 ∧ o.URLPath.length = 0 then
    .error .requiredConfigureFileOrParams
  else
    match parseParams o.Parameters with
    | .error e => .error e
    | .ok kv => .ok { o with KeyValues := kv }

/-- validateTemplateParam: an empty template list is an error; with no
explicit template name, more than one template is an error and exactly
one is auto-selected (writing its name back into the descriptor);
otherwise the given name is matched by equality against the list. -/
def validateTemplateParam (o : OperationsOptions) (tpls : List ConfigTemplate) :
    Except OpsError (OperationsOptions × ConfigTemplate) :=
  if tpls.length = 0 then .error .noConfigTemplate
  else if o.CfgTemplateName.length = 0 ∧ tpls.length > 1 then .error .mustSpecifyTemplate
  else if o.CfgTemplateName.length = 0 ∧ tpls.length = 1 then
    match tpls with
    | tpl :: _ => .ok ({ o with CfgTemplateName := tpl.Name }, tpl)
    | [] => .error .noConfigTemplate
  else
    match tpls.find? (fun tpl => tpl.Name == o.CfgTemplateName) with
    | some tpl => .ok (o, tpl)
    | none => .error (.templateNotExist o.CfgTemplateName)

/-- The body of validateConfigMapKey after the config map has been
fetched: an empty map is an error; with no explicit file name a
single-key map auto-fills that key; otherwise the file name must be a key
of the map. -/
def validateConfigMapKeyData (o : OperationsOptions) (data : List (String × String)) :
    Except OpsError OperationsOptions :=
  if data.length = 0 then .error .noConfigFile
  else if o.CfgFile.length = 0 ∧ data.length = 1 then
    match data with
    | (k, _) :: _ => .ok { o with CfgFile := k }
    | [] => .error .noConfigFile
  else
    match data.lookup o.CfgFile with
    | some _ => .ok o
    | none => .error (.fileNotExist o.CfgFile)

/-- validateConfigMapKey: fetch the config map named by
cfgcore.GetComponentCfgName for the selected template, propagating fetch
errors, then check the file key against its data. -/
def validateConfigMapKey (env : Env) (o : OperationsOptions) (tpl : ConfigTemplate)
    (componentName : String) : Except OpsError OperationsOptions :=
  match env.getConfigMapData (env.getComponentCfgName o.Name componentName tpl.VolumeName) o.Namespace with
  | .error e => .error e
  | .ok data => validateConfigMapKeyData o data

/-- validateConfigParams: fetch the config constraint referenced by the
template and run the merge-and-validate step on the resolved key-value
map for the selected file. -/
def validateConfigParams (env : Env) (o : OperationsOptions) (tpl : ConfigTemplate)
    (_componentName : String) : Except OpsError Unit :=
  match env.getConfigConstraint tpl.ConfigConstraintRef with
  | .error e => .error e
  | .ok cc => env.mergeAndValidateConfiguration cc o.CfgFile o.KeyValues

/-- validateReconfiguring: exactly one component name; a non-empty
URLPath is checked for existence only and short-circuits the rest of the
pipeline; otherwise parameters are parsed, templates fetched and
resolved, the config-map file key resolved, and the constraint schema
consulted, each step short-circuiting on failure. -/
def validateReconfiguring (env : Env) (o : OperationsOptions) : Except OpsError OperationsOptions :=
  if o.ComponentNames.length ≠ 1 then .error .onlyOneComponent
  else if o.URLPath.length ≠ 0 then
    match env.statFile o.URLPath with
    | .error e => .error (.statWrapped o.URLPath e)
    | .ok _ => .ok o
  else
    match validateUpdatedParams o with
    | .error e => .error (.updatedParamsWrapped e)
    | .ok o1 =>
      match env.getConfigTemplateList o1.Name o1.Namespace (o1.ComponentNames.headD "") with
      | .error e => .error e
      | .ok tplList =>
        match validateTemplateParam o1 tplList with
        | .error e => .error e
        | .ok (o2, tpl) =>
          match validateConfigMapKey env o2 tpl (o2.ComponentNames.headD "") with
          | .error e => .error e
          | .ok o3 =>
            match validateConfigParams env o3 tpl (o3.ComponentNames.headD "") with
            | .error e => .error e
            | .ok _ => .ok o3

/-- Validate: a cluster name is always required first; Upgrade is
dispatched before the common component-names check; every other kind
requires component names, then runs its kind-specific validator, and
ends with the confirmation gate. -/
def Validate (env : Env) (o : OperationsOptions) : Except OpsError OperationsOptions :=
  if o.Name = "" then .error .missingClusterName
  else if o.OpsType = .Upgrade then validateUpgrade env o
  else if o.ComponentNames.length = 0 then .error .missingComponentNames
  else
    match
      (match o.OpsType with
       | .VolumeExpansion => validateVolumeExpansion o
       | .HorizontalScaling => validateHorizontalScaling o
       | .Reconfiguring => validateReconfiguring env o
       | _ => .ok o) with
    | .error e => .error e
    | .ok o1 =>
      match env.confirm [o1.Name] with
      | .error e => .error e
      | .ok _ => .ok o1

/-- A baseline descriptor for concrete instances: a one-component
reconfigure request against cluster mycluster with no optional field
set. -/
def oBase : OperationsOptions :=
  { Name := "mycluster", Namespace := "default", ComponentNames := ["mysql"],
    OpsType := .Reconfiguring, ClusterVersionRef := "", RequestCPU := "", RequestMemory := "",
    LimitCPU := "", LimitMemory := "", Replicas := -1, URLPath := "", Parameters := [],
    KeyValues := [], CfgTemplateName := "", CfgFile := "", VCTNames := [], Storage := "" }

/-- A concrete environment whose oracles all succeed with fixed values. -/
def envSample : Env :=
  { statFile := fun _ => .ok (),
    getConfigTemplateList := fun _ _ _ => .ok [],
    getComponentCfgName := fun _ _ _ => "",
    getConfigMapData := fun _ _ => .ok [],
    getConfigConstraint := fun _ => .ok "",
    mergeAndValidateConfiguration := fun _ _ _ => .ok (),
    confirm := fun _ => .ok (),
    getCluster := fun _ _ => .ok { restartable := .ok ["mysql"] } }

example : goSplit ',' "max_connections=1000,general_log=OFF" =
    ["max_connections=1000", "general_log=OFF"] := rfl

example : goSplitN2 '=' "max_connections=1000" = ["max_connections", "1000"] := rfl

example : goSplitN2 '=' "bad_token" = ["bad_token"] := rfl

example : goSplitN2 '=' "a=b=c" = ["a", "b=c"] := rfl

/-- The worked reconfigure example: one entry holding two comma-separated
pairs. -/
def oParamsPair : OperationsOptions :=
  { oBase with Parameters := ["max_connections=1000,general_log=OFF"] }

/-- A parameter list assigning the same key twice across entries. -/
def oParamsDup : OperationsOptions :=
  { oBase with Parameters := ["a=1", "a=2"] }

/-- A parameter list whose single entry has no equals sign. -/
def oParamsBad : OperationsOptions :=
  { oBase with Parameters := ["bad_token"] }

example :
    validateUpdatedParams oParamsPair =
      .ok { oParamsPair with KeyValues := [("max_connections", "1000"), ("general_log", "OFF")] } := rfl

example :
    validateUpdatedParams oParamsDup = .ok { oParamsDup with KeyValues := [("a", "2")] } := rfl

example :
    validateUpdatedParams { oBase with Parameters := ["bad_token"] } =
      .error .updatedParameterFormatter := rfl

example : validateHorizontalScaling { oBase with Replicas := -1 } =
    .ok { oBase with Replicas := -1 } := rfl

/-- Binding an ok value in the Except monad applies the continuation. -/
theorem except_bind_ok {ε α β : Type} (a : α) (f : α → Except ε β) :
    (Except.ok a >>= f) = f a := rfl

/-- Binding an error in the Except monad keeps the error. -/
theorem except_bind_error {ε α β : Type} (e : ε) (f : α → Except ε β) :
    ((Except.error e : Except ε α) >>= f) = Except.error e := rfl

/-- Unfolding List.foldlM on a cons cell in the Except monad. -/
theorem foldlM_cons_except {ε α β : Type} (f : β → α → Except ε β) (b : β) (a : α)
    (l : List α) :
    (a :: l).foldlM f b = f b a >>= fun b1 => l.foldlM f b1 := rfl

/-- A pair that does not split into exactly two fields on the first
equals sign is rejected with the formatter error. -/
theorem parsePair_error {kv : List (String × String)} {p : String}
    (h : (goSplitN2 '=' p).length ≠ 2) :
    parsePair kv p = .error .updatedParameterFormatter := by
  unfold parsePair
  cases hsp : goSplitN2 '=' p with
  | nil => rfl
  | cons k t =>
    cases t with
    | nil => rfl
    | cons v t2 =>
      cases t2 with
      | nil => exact absurd (by rw [hsp]; rfl) h
      | cons w t3 => rfl

/-- A pair splitting into key and value becomes a map assignment. -/
theorem parsePair_ok {kv : List (String × String)} {p k v : String}
    (h : goSplitN2 '=' p = [k, v]) :
    parsePair kv p = .ok (mapInsert k v kv) := by
  unfold parsePair
  rw [h]

/-- Folding parsePair over a pair list containing a malformed pair always
yields the formatter error, from any starting map. -/
theorem foldlM_parsePair_error :
    ∀ (ps : List String) (kv : List (String × String)),
      (∃ p ∈ ps, (goSplitN2 '=' p).length ≠ 2) →
      ps.foldlM parsePair kv = .error .updatedParameterFormatter := by
  intro ps
  induction ps with
  | nil =>
    intro kv h
    rcases h with ⟨p, hp, _⟩
    cases hp
  | cons p rest ih =>
    intro kv h
    rw [foldlM_cons_except]
    by_cases hgood : (goSplitN2 '=' p).length = 2
    · rcases List.length_eq_two.mp hgood with ⟨k, v, hkv⟩
      rw [parsePair_ok hkv, except_bind_ok]
      apply ih
      rcases h with ⟨q, hq, hqbad⟩
      rcases List.mem_cons.mp hq with rfl | hq2
      · exact absurd hgood hqbad
      · exact ⟨q, hq2, hqbad⟩
    · rw [parsePair_error hgood, except_bind_error]

/-- Folding parsePair over a list of well-formed pairs succeeds, from any
starting map. -/
theorem foldlM_parsePair_ok :
    ∀ (ps : List String) (kv : List (String × String)),
      (∀ p ∈ ps, (goSplitN2 '=' p).length = 2) →
      ∃ kv2, ps.foldlM parsePair kv = .ok kv2 := by
  intro ps
  induction ps with
  | nil => intro kv _; exact ⟨kv, rfl⟩
  | cons p rest ih =>
    intro kv h
    rcases List.length_eq_two.mp (h p (List.mem_cons_self p rest)) with ⟨k, v, hkv⟩
    rw [foldlM_cons_except, parsePair_ok hkv, except_bind_ok]
    exact ih _ (fun q hq => h q (List.mem_cons_of_mem p hq))

/-- Folding parseEntry over a parameter list containing a malformed pair
in some entry always yields the formatter error. -/
theorem foldlM_parseEntry_error :
    ∀ (params : List String) (kv : List (String × String)),
      (∃ param ∈ params, ∃ p ∈ goSplit ',' param, (goSplitN2 '=' p).length ≠ 2) →
      params.foldlM parseEntry kv = .error .updatedParameterFormatter := by
  intro params
  induction params with
  | nil =>
    intro kv h
    rcases h with ⟨param, hp, _⟩
    cases hp
  | cons param rest ih =>
    intro kv h
    rw [foldlM_cons_except]
    by_cases hbad : ∃ p ∈ goSplit ',' param, (goSplitN2 '=' p).length ≠ 2
    · have hent : parseEntry kv param = .error .updatedParameterFormatter :=
        foldlM_parsePair_error _ _ hbad
      rw [hent, except_bind_error]
    · push_neg at hbad
      rcases foldlM_parsePair_ok (goSplit ',' param) kv hbad with ⟨kv2, hok⟩
      have hent : parseEntry kv param = .ok kv2 := hok
      rw [hent, except_bind_ok]
      apply ih
      rcases h with ⟨q, hq, hqbad⟩
      rcases List.mem_cons.mp hq with rfl | hq2
      · rcases hqbad with ⟨p, hp, hpbad⟩
        exact absurd (hbad p hp) hpbad
      · exact ⟨q, hq2, hqbad⟩

/-- Association-list lookup fails when no key of the list equals the
looked-up key. -/
theorem lookup_eq_none_of_ne {data : List (String × String)} {k : String}
    (h : ∀ p ∈ data, p.1 ≠ k) : data.lookup k = none := by
  induction data with
  | nil => rfl
  | cons p rest ih =>
    obtain ⟨k1, v1⟩ := p
    have hne : (k == k1) = false :=
      beq_eq_false_iff_ne.mpr (fun he => h (k1, v1) (List.mem_cons_self _ _) he.symm)
    simp only [List.lookup, hne]
    exact ih (fun q hq => h q (List.mem_cons_of_mem _ hq))

/-- C1: validateUpdatedParams parses the Reconfigure parameter list into a
key-to-value mapping, splitting each list entry on commas and each
resulting pair on the first equals sign.  A pair that does not split into
exactly two fields, in particular one with no equals sign such as the
single entry bad_token, fails with the formatter error.  The list whose
one entry is max_connections=1000,general_log=OFF parses to the mapping
sending max_connections to 1000 and general_log to OFF, and with the
entries a=1 then a=2 the last occurrence of the key wins, yielding the
mapping sending a to 2. -/
theorem C1_validateUpdatedParams_parsing :
    (∀ o : OperationsOptions,
        (∃ param ∈ o.Parameters, ∃ p ∈ goSplit ',' param, (goSplitN2 '=' p).length ≠ 2) →
        validateUpdatedParams o = .error .updatedParameterFormatter) ∧
    validateUpdatedParams oParamsPair =
      .ok { oParamsPair with KeyValues := [("max_connections", "1000"), ("general_log", "OFF")] } ∧
    validateUpdatedParams oParamsDup = .ok { oParamsDup with KeyValues := [("a", "2")] } := by
  refine ⟨?_, rfl, rfl⟩
  intro o h
  have hne : o.Parameters ≠ [] := by
    rcases h with ⟨param, hp, _⟩
    intro hnil
    rw [hnil] at hp
    cases hp
  unfold validateUpdatedParams
  rw [if_neg (fun hand => hne (List.length_eq_zero.mp hand.1))]
  have hperr : parseParams o.Parameters = .error .updatedParameterFormatter :=
    foldlM_parseEntry_error _ _ h
  rw [hperr]

/-- Witness for C1: the single entry bad_token, which has no equals sign,
fails with the formatter error. -/
theorem C1_validateUpdatedParams_parsing_witness :
    validateUpdatedParams oParamsBad = .error .updatedParameterFormatter :=
  C1_validateUpdatedParams_parsing.1 oParamsBad
    ⟨"bad_token", by decide, "bad_token", by decide, by decide⟩

/-- C2: validateTemplateParam on the fetched template list: an empty list
fails with the no-config-template error; with no explicit template name a
single template is auto-selected, writing its name back into the
descriptor, while more than one template fails with the
must-specify-template error; a given template name is matched by string
equality against the list, returning a template of that name when one is
present and failing with the not-exist error when no template matches. -/
theorem C2_validateTemplateParam_selection :
    (∀ o : OperationsOptions, validateTemplateParam o [] = .error .noConfigTemplate) ∧
    (∀ (o : OperationsOptions) (tpl : ConfigTemplate), o.CfgTemplateName.length = 0 →
        validateTemplateParam o [tpl] = .ok ({ o with CfgTemplateName := tpl.Name }, tpl)) ∧
    (∀ (o : OperationsOptions) (tpls : List ConfigTemplate), o.CfgTemplateName.length = 0 →
        1 < tpls.length → validateTemplateParam o tpls = .error .mustSpecifyTemplate) ∧
    (∀ (o : OperationsOptions) (tpls : List ConfigTemplate) (tpl : ConfigTemplate),
        o.CfgTemplateName.length ≠ 0 → tpl ∈ tpls → tpl.Name = o.CfgTemplateName →
        ∃ t, validateTemplateParam o tpls = .ok (o, t) ∧ t.Name = o.CfgTemplateName) ∧
    (∀ (o : OperationsOptions) (tpls : List ConfigTemplate), tpls ≠ [] →
        o.CfgTemplateName.length ≠ 0 → (∀ tpl ∈ tpls, tpl.Name ≠ o.CfgTemplateName) →
        validateTemplateParam o tpls = .error (.templateNotExist o.CfgTemplateName)) := by
  refine ⟨fun o => rfl, ?_, ?_, ?_, ?_⟩
  · intro o tpl h
    unfold validateTemplateParam
    rw [if_neg (by simp), if_neg (by simp), if_pos ⟨h, rfl⟩]
  · intro o tpls h0 h1
    unfold validateTemplateParam
    rw [if_neg (by omega), if_pos ⟨h0, h1⟩]
  · intro o tpls tpl hlen hmem hname
    have hfind : (tpls.find? (fun t => t.Name == o.CfgTemplateName)).isSome :=
      List.find?_isSome.mpr ⟨tpl, hmem, by simp [hname]⟩
    rcases Option.isSome_iff_exists.mp hfind with ⟨t, ht⟩
    refine ⟨t, ?_, ?_⟩
    · unfold validateTemplateParam
      rw [if_neg (fun hh => List.ne_nil_of_mem hmem (List.length_eq_zero.mp hh)),
        if_neg (fun hand => hlen hand.1), if_neg (fun hand => hlen hand.1), ht]
    · simpa using List.find?_some ht
  · intro o tpls hne hlen hall
    have hfind : tpls.find? (fun t => t.Name == o.CfgTemplateName) = none := by
      rw [List.find?_eq_none]
      intro x hx
      simpa using hall x hx
    unfold validateTemplateParam
    rw [if_neg (fun hh => hne (List.length_eq_zero.mp hh)),
      if_neg (fun hand => hlen hand.1), if_neg (fun hand => hlen hand.1), hfind]

/-- A concrete template for witnesses. -/
def tplSample : ConfigTemplate :=
  { Name := "mysql-tpl", VolumeName := "mysql-config", ConfigConstraintRef := "mysql-constraints" }

/-- Witness for C2: with no explicit template name and exactly one
fetched template, that template is auto-selected and its name written
back into the descriptor. -/
theorem C2_validateTemplateParam_selection_witness :
    validateTemplateParam oBase [tplSample] =
      .ok ({ oBase with CfgTemplateName := tplSample.Name }, tplSample) :=
  C2_validateTemplateParam_selection.2.1 oBase tplSample rfl

/-- C3: validateConfigMapKey checks the configure-file key against
exactly the fetched config-map data; on that data an empty map fails with
the no-config-file error, a single-key map with no explicit
configure-file name auto-fills that key into CfgFile and succeeds, and an
explicit file name absent from the keys fails with the not-exist
error. -/
theorem C3_validateConfigMapKey_fileKey :
    (∀ (env : Env) (o : OperationsOptions) (tpl : ConfigTemplate) (comp : String)
        (data : List (String × String)),
        env.getConfigMapData (env.getComponentCfgName o.Name comp tpl.VolumeName) o.Namespace =
          .ok data →
        validateConfigMapKey env o tpl comp = validateConfigMapKeyData o data) ∧
    (∀ o : OperationsOptions, validateConfigMapKeyData o [] = .error .noConfigFile) ∧
    (∀ (o : OperationsOptions) (k v : String), o.CfgFile.length = 0 →
        validateConfigMapKeyData o [(k, v)] = .ok { o with CfgFile := k }) ∧
    (∀ (o : OperationsOptions) (data : List (String × String)), data ≠ [] →
        o.CfgFile.length ≠ 0 → (∀ p ∈ data, p.1 ≠ o.CfgFile) →
        validateConfigMapKeyData o data = .error (.fileNotExist o.CfgFile)) := by
  refine ⟨?_, fun o => rfl, ?_, ?_⟩
  · intro env o tpl comp data hfetch
    unfold validateConfigMapKey
    rw [hfetch]
  · intro o k v h
    unfold validateConfigMapKeyData
    rw [if_neg (by simp), if_pos ⟨h, rfl⟩]
  · intro o data hne hlen hall
    unfold validateConfigMapKeyData
    rw [if_neg (fun hh => hne (List.length_eq_zero.mp hh)),
      if_neg (fun hand => hlen hand.1), lookup_eq_none_of_ne hall]

/-- Witness for C3: a config map with the single key my.cnf and no
explicit configure-file name auto-fills that key. -/
theorem C3_validateConfigMapKey_fileKey_witness :
    validateConfigMapKeyData oBase [("my.cnf", "cfg")] = .ok { oBase with CfgFile := "my.cnf" } :=
  C3_validateConfigMapKey_fileKey.2.2.1 oBase "my.cnf" "cfg" rfl

/-- A reconfigure descriptor carrying an external file path. -/
def oUrlPath : OperationsOptions := { oBase with URLPath := "/tmp/my.cnf" }

/-- C4: with exactly one component name and a non-empty URLPath,
validateReconfiguring consults only the filesystem existence check: a
stat failure fails with the wrapped stat error, and a stat success
returns the descriptor unchanged immediately, for every environment —
parameter parsing, template resolution, config-map file-key resolution
and constraint validation are skipped, leaving KeyValues,
CfgTemplateName and CfgFile untouched. -/
theorem C4_validateReconfiguring_urlPath :
    ∀ (env : Env) (o : OperationsOptions), o.ComponentNames.length = 1 → o.URLPath.length ≠ 0 →
      (∀ e, env.statFile o.URLPath = .error e →
          validateReconfiguring env o = .error (.statWrapped o.URLPath e)) ∧
      (env.statFile o.URLPath = .ok () →
          validateReconfiguring env o = .ok o) := by
  intro env o hcomp hurl
  constructor
  · intro e hstat
    unfold validateReconfiguring
    rw [if_neg (fun hh => hh hcomp), if_pos hurl, hstat]
  · intro hstat
    unfold validateReconfiguring
    rw [if_neg (fun hh => hh hcomp), if_pos hurl, hstat]

/-- Witness for C4: with an existing external file path the whole
pipeline returns the descriptor unchanged. -/
theorem C4_validateReconfiguring_urlPath_witness :
    validateReconfiguring envSample oUrlPath = .ok oUrlPath :=
  (C4_validateReconfiguring_urlPath envSample oUrlPath rfl (by decide)).2 rfl

/-- Concrete HorizontalScale descriptors at the replica counts named by
the spec. -/
def oHScaleNeg1 : OperationsOptions := { oBase with OpsType := .HorizontalScaling, Replicas := -1 }

/-- HorizontalScale descriptor with replicas minus two. -/
def oHScaleNeg2 : OperationsOptions := { oBase with OpsType := .HorizontalScaling, Replicas := -2 }

/-- HorizontalScale descriptor with replicas zero. -/
def oHScaleZero : OperationsOptions := { oBase with OpsType := .HorizontalScaling, Replicas := 0 }

/-- HorizontalScale descriptor with replicas five. -/
def oHScaleFive : OperationsOptions := { oBase with OpsType := .HorizontalScaling, Replicas := 5 }

/-- C5 counterexample: replicas = -1 does not fail the replica check —
validateHorizontalScaling returns the descriptor unchanged, refuting the
claim that the -1 sentinel is rejected. -/
theorem C5_replicasNeg1_counterexample :
    validateHorizontalScaling oHScaleNeg1 = .ok oHScaleNeg1 := rfl

/-- C5 amended: the replica check fails with the
replicas-required-natural-number error exactly for replica counts below
-1, so -2 fails while -1, 0 and 5 all pass the check unchanged. -/
theorem C5_validateHorizontalScaling_replicas :
    (∀ o : OperationsOptions, o.Replicas < -1 →
        validateHorizontalScaling o = .error .replicasRequiredNaturalNumber) ∧
    (∀ o : OperationsOptions, -1 ≤ o.Replicas → validateHorizontalScaling o = .ok o) := by
  constructor
  · intro o h
    unfold validateHorizontalScaling
    rw [if_pos h]
  · intro o h
    unfold validateHorizontalScaling
    rw [if_neg (by omega)]

/-- Witness for the amended C5 at the concrete replica counts -2, 0
and 5. -/
theorem C5_validateHorizontalScaling_replicas_witness :
    validateHorizontalScaling oHScaleNeg2 = .error .replicasRequiredNaturalNumber ∧
    validateHorizontalScaling oHScaleZero = .ok oHScaleZero ∧
    validateHorizontalScaling oHScaleFive = .ok oHScaleFive :=
  ⟨C5_validateHorizontalScaling_replicas.1 oHScaleNeg2 (by decide),
   C5_validateHorizontalScaling_replicas.2 oHScaleZero (by decide),
   C5_validateHorizontalScaling_replicas.2 oHScaleFive (by decide)⟩

/-- C6: CompleteRestartOps with empty componentNames queries the cluster
record and stores its status.operations.restartable list into the
descriptor; a failure to fetch the record and a failure to read the
nested list are both returned as errors, never silently ignored. -/
theorem C6_CompleteRestartOps_restartable :
    ∀ (env : Env) (o : OperationsOptions), o.ComponentNames = [] →
      (∀ e, env.getCluster o.Namespace o.Name = .error e →
          CompleteRestartOps env o = .error (.remoteLookup e)) ∧
      (∀ obj e, env.getCluster o.Namespace o.Name = .ok obj → obj.restartable = .error e →
          CompleteRestartOps env o = .error (.remoteLookup e)) ∧
      (∀ obj names, env.getCluster o.Namespace o.Name = .ok obj → obj.restartable = .ok names →
          CompleteRestartOps env o = .ok { o with ComponentNames := names }) := by
  intro env o hcomp
  have hguard : ¬(o.ComponentNames.length ≠ 0) := by rw [hcomp]; simp
  refine ⟨?_, ?_, ?_⟩
  · intro e hget
    unfold CompleteRestartOps
    rw [if_neg hguard, hget]
  · intro obj e hget hrest
    unfold CompleteRestartOps
    simp only [if_neg hguard, hget, hrest]
  · intro obj names hget hrest
    unfold CompleteRestartOps
    simp only [if_neg hguard, hget, hrest]

/-- A restart descriptor with no component names given. -/
def oRestartEmpty : OperationsOptions := { oBase with OpsType := .Restart, ComponentNames := [] }

/-- Witness for C6: the restartable list of the fetched cluster record is
stored into the descriptor. -/
theorem C6_CompleteRestartOps_restartable_witness :
    CompleteRestartOps envSample oRestartEmpty =
      .ok { oRestartEmpty with ComponentNames := ["mysql"] } :=
  (C6_CompleteRestartOps_restartable envSample oRestartEmpty rfl).2.2
    { restartable := .ok ["mysql"] } ["mysql"] rfl rfl

/-- C7: validateReconfiguring requires exactly one component name;
whenever the count differs from one it fails with the only-one-component
error, for every environment. -/
theorem C7_validateReconfiguring_oneComponent :
    ∀ (env : Env) (o : OperationsOptions), o.ComponentNames.length ≠ 1 →
      validateReconfiguring env o = .error .onlyOneComponent := by
  intro env o h
  unfold validateReconfiguring
  rw [if_pos h]

/-- A reconfigure descriptor naming two components. -/
def oTwoComponents : OperationsOptions := { oBase with ComponentNames := ["mysql", "proxy"] }

/-- Witness for C7: two component names fail with the only-one-component
error. -/
theorem C7_validateReconfiguring_oneComponent_witness :
    validateReconfiguring envSample oTwoComponents = .error .onlyOneComponent :=
  C7_validateReconfiguring_oneComponent envSample oTwoComponents (by decide)

/-- C8: for the VerticalScale, HorizontalScale, VolumeExpand and
Reconfigure kinds, Validate with empty componentNames fails with the
missing-component-names error for every environment, so no oracle
(remote lookup or confirmation) is consulted before the failure. -/
theorem C8_Validate_missingComponentNames :
    ∀ (env : Env) (o : OperationsOptions), o.Name ≠ "" →
      (o.OpsType = .VerticalScaling ∨ o.OpsType = .HorizontalScaling ∨
        o.OpsType = .VolumeExpansion ∨ o.OpsType = .Reconfiguring) →
      o.ComponentNames = [] →
      Validate env o = .error .missingComponentNames := by
  intro env o hname hkind hcomp
  have hup : ¬(o.OpsType = OpsType.Upgrade) := by
    rcases hkind with h | h | h | h <;> simp [h]
  unfold Validate
  rw [if_neg hname, if_neg hup, if_pos (by rw [hcomp]; rfl)]

/-- A reconfigure descriptor with no component names. -/
def oNoComponents : OperationsOptions := { oBase with ComponentNames := [] }

/-- Witness for C8: a Reconfigure request with no component names fails
with the missing-component-names error. -/
theorem C8_Validate_missingComponentNames_witness :
    Validate envSample oNoComponents = .error .missingComponentNames :=
  C8_Validate_missingComponentNames envSample oNoComponents (by decide)
    (Or.inr (Or.inr (Or.inr rfl))) rfl

/-- C9: Validate with an empty cluster name fails with the
missing-cluster-name error for every operation kind and every
environment, before any other check or lookup runs. -/
theorem C9_Validate_missingClusterName :
    ∀ (env : Env) (o : OperationsOptions), o.Name = "" →
      Validate env o = .error .missingClusterName := by
  intro env o h
  unfold Validate
  rw [if_pos h]

/-- A descriptor with an empty cluster name. -/
def oNoName : OperationsOptions := { oBase with Name := "" }

/-- Witness for C9: an empty cluster name fails with the
missing-cluster-name error. -/
theorem C9_Validate_missingClusterName_witness :
    Validate envSample oNoName = .error .missingClusterName :=
  C9_Validate_missingClusterName envSample oNoName rfl

/-- C10: with more than one key in the fetched config map and no explicit
configure-file name, validateConfigMapKey neither auto-fills nor raises a
dedicated ambiguity error: it falls through to the membership check with
the empty file name and, the map keys being non-empty, fails with the
file-not-exist error carrying the empty file name. -/
theorem C10_validateConfigMapKey_multiKey :
    ∀ (o : OperationsOptions) (data : List (String × String)),
      o.CfgFile.length = 0 → 1 < data.length → (∀ p ∈ data, p.1.length ≠ 0) →
      validateConfigMapKeyData o data = .error (.fileNotExist o.CfgFile) := by
  intro o data hcfg hlen hkeys
  unfold validateConfigMapKeyData
  rw [if_neg (by omega), if_neg (fun hand => absurd hand.2 (by omega)),
    lookup_eq_none_of_ne (fun p hp heq => hkeys p hp (by rw [heq]; exact hcfg))]

/-- Witness for C10: a two-key config map with no explicit file name
fails with the file-not-exist error naming the empty file name. -/
theorem C10_validateConfigMapKey_multiKey_witness :
    validateConfigMapKeyData oBase [("my.cnf", "a"), ("other.cnf", "b")] =
      .error (.fileNotExist oBase.CfgFile) :=
  C10_validateConfigMapKey_multiKey oBase [("my.cnf", "a"), ("other.cnf", "b")]
    rfl (by decide) (by decide)

end Ops
